import Mathlib

/-!
Verification development for the Solana monitoring core of the repository
(`src/agents/solana_monitor.py` and `src/agents/solana_query.py`).

Shallow embedding conventions:
* Python floats are modelled as exact rationals (`ℚ`); the percentage and
  threshold arithmetic of the monitor involves only field operations and
  order comparisons, which the rational model captures exactly.
* Python dict/JSON values are modelled by the `Json` inductive type; dict
  access `d.get(k, default)` becomes an association-list lookup with a
  default, with the JSON convention that a duplicated key keeps its last
  occurrence.
* Network effects are passed in as explicit parameters: a function that in
  Python performs an HTTP request here receives the outcome of that request
  (`Except String Json`: either a decoded JSON body or the text of the
  exception raised).
* A Python function that can raise an exception that its caller catches is
  modelled with an `Option` result, `none` standing for the raised
  exception.
-/

/-- JSON values (also standing for the Python dict/list/str/number values
the agents pass around). Numbers are modelled as exact rationals. -/
inductive Json where
  | null : Json
  | bool (b : Bool) : Json
  | num (q : ℚ) : Json
  | str (s : String) : Json
  | arr (elems : List Json) : Json
  | obj (fields : List (String × Json)) : Json

/-- Lookup of a key in a JSON object's field list. JSON/Python dict
semantics: when a key occurs several times the last occurrence wins. -/
def jLook (fields : List (String × Json)) (k : String) : Option Json :=
  ((fields.filter (fun p => p.1 = k)).getLast?).map Prod.snd

/-- Python numeric coercion for arithmetic on a decoded JSON value: `int`
and `float` are numbers, `bool` is numeric (`True = 1`, `False = 0`), and
every other value raises `TypeError` when used in arithmetic (`none`). -/
def pyNum? : Json → Option ℚ
  | Json.num q => some q
  | Json.bool b => some (if b then 1 else 0)
  | _ => none

/-- Numeric value of a list of decimal digit characters. -/
def digitsVal (cs : List Char) : Nat :=
  cs.foldl (fun acc c => acc * 10 + (c.toNat - 48)) 0

/-- The list is nonempty and all characters are decimal digits. -/
def isDigits (cs : List Char) : Bool :=
  !cs.isEmpty && cs.all (·.isDigit)

/-- Split a character list at the first character satisfying `p`; the
second component is `none` when no such character occurs. -/
def splitAtChar (p : Char → Bool) : List Char → List Char × Option (List Char)
  | [] => ([], none)
  | c :: rest =>
    if p c then ([], some rest)
    else
      let (a, b) := splitAtChar p rest
      (c :: a, b)

/-- Strip a leading sign character, returning whether it was `-` and the
rest. -/
def stripSign : List Char → Bool × List Char
  | '-' :: rest => (true, rest)
  | '+' :: rest => (false, rest)
  | cs => (false, cs)

/-- Strip surrounding ASCII whitespace, as Python `float(s)` does before
parsing. -/
def stripSpace (cs : List Char) : List Char :=
  ((cs.dropWhile Char.isWhitespace).reverse.dropWhile Char.isWhitespace).reverse

/-- The components of a finite decimal float literal: sign, integer-part
digit value, fraction digit value and length, exponent sign and
magnitude. -/
structure FloatParts where
  neg : Bool
  ip : Nat
  fp : Nat
  fpLen : Nat
  eneg : Bool
  e : Nat
  deriving DecidableEq

/-- Syntactic part of Python `float(s)` on finite decimal literals:
optional surrounding whitespace, optional sign, an integer part and/or a
fractional part around an optional dot, and an optional signed decimal
exponent. `none` models the `ValueError` raised on anything else.
Non-finite literals such as `inf`/`nan` are outside the rational model
and also map to `none`; no value handled by the monitor involves them. -/
def parseParts (s : String) : Option FloatParts :=
  let cs := stripSpace s.data
  let (neg, cs) := stripSign cs
  let (mantissa, expPart) := splitAtChar (fun c => c = 'e' || c = 'E') cs
  let (intPart, fracPart) := splitAtChar (fun c => c = '.') mantissa
  let mantissaOk :=
    match fracPart with
    | none => isDigits intPart
    | some fp =>
      (intPart.all (·.isDigit) && fp.all (·.isDigit)) &&
        (!intPart.isEmpty || !fp.isEmpty)
  if !mantissaOk then none
  else
    let base : FloatParts :=
      { neg := neg, ip := digitsVal intPart, fp := digitsVal (fracPart.getD [])
        fpLen := (fracPart.getD []).length, eneg := false, e := 0 }
    match expPart with
    | none => some base
    | some ec =>
      let (eneg, edigits) := stripSign ec
      if isDigits edigits then
        some { base with eneg := eneg, e := digitsVal edigits }
      else none

/-- Rational value of parsed float components. -/
def partsVal (p : FloatParts) : ℚ :=
  (if p.neg then -1 else 1) * ((p.ip : ℚ) + (p.fp : ℚ) / (10 : ℚ) ^ p.fpLen) *
    (10 : ℚ) ^ ((if p.eneg then -1 else 1) * (p.e : ℤ))

/-- Model of Python `float(s)`: the exact rational value of the finite
decimal literal `s`, or `none` for the `ValueError` on anything else. -/
def parseFloat? (s : String) : Option ℚ :=
  (parseParts s).map partsVal

/-- Round a rational to the nearest integer, ties to even (the rounding
used by Python's fixed-point float formatting, applied here to the exact
rational value). -/
def roundHalfEven (q : ℚ) : ℤ :=
  let f := ⌊q⌋
  let r := q - (f : ℚ)
  if r < 1 / 2 then f
  else if 1 / 2 < r then f + 1
  else if f % 2 = 0 then f else f + 1

/-- Digit rendering of a fixed-point number: the scaled integer `n` printed
with `prec` fractional digits. -/
def fmtDigits (prec : Nat) (n : ℤ) : String :=
  let sign := if n < 0 then "-" else ""
  let m := n.natAbs
  let ip := m / 10 ^ prec
  let fp := m % 10 ^ prec
  if prec = 0 then sign ++ toString ip
  else
    let fpStr := toString fp
    let pad := String.mk (List.replicate (prec - fpStr.length) '0')
    sign ++ toString ip ++ "." ++ pad ++ fpStr

/-- Model of the Python f-string fixed-point format `{x:.prec f}` on the
exact rational value: round half-to-even at `prec` decimal places and
print with exactly `prec` fractional digits. (The sign of an IEEE
negative zero is not modelled; no value formatted by the monitor's alerts
is a negative zero.) -/
def fmtFixed (prec : Nat) (q : ℚ) : String :=
  fmtDigits prec (roundHalfEven (q * (10 : ℚ) ^ prec))

lemma roundHalfEven_intCast (n : ℤ) : roundHalfEven (n : ℚ) = n := by
  simp [roundHalfEven]

lemma fmtFixed_eq_fmtDigits (prec : Nat) (q : ℚ) (n : ℤ)
    (h : q * (10 : ℚ) ^ prec = (n : ℚ)) : fmtFixed prec q = fmtDigits prec n := by
  rw [fmtFixed, h, roundHalfEven_intCast]

/-! ### Data model (`solana_monitor.py` snapshots, `solana_query.py` client) -/

/-- One watched-wallet descriptor from configuration (`SOLANA_WALLETS`):
a JSON object whose `address`/`label` keys may be absent. -/
structure WatchedWallet where
  address : Option String
  label : Option String
  deriving DecidableEq

/-- One wallet observation as built by `check_wallets`: on success
`{address, label, balance_sol, timestamp}`, on a caught exception
`{address, label, balance_sol: None, error}`. -/
structure WalletObs where
  address : String
  label : String
  balance_sol : Option ℚ
  timestamp : Option String
  error : Option String
  deriving DecidableEq

/-- One token observation as built by `check_prices`: on success the full
record, on "no pairs" or a caught exception just `{symbol, error}`. The
price-like fields hold whatever JSON value the upstream pair carried
(string, number, or the default `"N/A"`); `none` means the key is absent
from the record. -/
structure TokenObs where
  symbol : String
  price_usd : Option Json
  change_24h : Option Json
  volume_24h : Option Json
  liquidity_usd : Option Json
  dex : Option Json
  timestamp : Option String
  error : Option String

/-- A monitoring snapshot: the dict
`{"timestamp": ..., "wallets": [...], "prices": [...]}` built in `main`,
with `timestamp := none` and empty lists standing for the `{}` returned by
`load_previous_snapshot` on first run (Python `dict.get` with a default
makes the three shapes interchangeable). -/
structure Snapshot where
  timestamp : Option String
  wallets : List WalletObs
  prices : List TokenObs

/-- The empty previous snapshot of a first run. -/
def emptySnapshot : Snapshot :=
  { timestamp := none, wallets := [], prices := [] }

/-! ### Chain/Market Client (`solana_query.py`) -/

/-- `LAMPORTS_PER_SOL = 1_000_000_000`. -/
def LAMPORTS_PER_SOL : ℚ := 1000000000

/-- `fetch_json` from `solana_query.py`: the network request itself is
passed in as its outcome (`Except.ok` a decoded JSON body, `Except.error`
the text of the exception raised). Any exception is caught and converted
into the dict `{"error": str(e)}`. -/
def fetch_json (attempt : Except String Json) : Json :=
  match attempt with
  | Except.ok body => body
  | Except.error e => Json.obj [("error", Json.str e)]

/-- `get_balance` from `solana_query.py`, applied to the outcome of its
one RPC request (`rpc_call` adds only URL/payload plumbing around
`fetch_json`):
`lamports = result.get("result", {}).get("value", 0)` followed by
`lamports / LAMPORTS_PER_SOL`. `none` models the exception raised when a
`.get` is called on a non-dict or when `lamports` is non-numeric. -/
def get_balance (attempt : Except String Json) : Option ℚ :=
  match fetch_json attempt with
  | Json.obj fields =>
    match (jLook fields "result").getD (Json.obj []) with
    | Json.obj rfields =>
      (pyNum? ((jLook rfields "value").getD (Json.num 0))).map
        (fun lamports => lamports / LAMPORTS_PER_SOL)
    | _ => none
  | _ => none

/-- Loop body of `check_wallets` from `solana_monitor.py` for one watched
wallet, with the wallet's RPC outcome and the sweep timestamp passed in.
`none` models `continue` on an empty address; the caught-exception branch
records `balance_sol: None` and an `error` field (the exception's text is
not modelled; the fixed string `"exception"` stands for it). -/
def checkWalletEntry (wallet : WatchedWallet) (attempt : Except String Json)
    (ts : String) : Option WalletObs :=
  let address := wallet.address.getD ""
  let label := wallet.label.getD (address.take 8)
  if address = "" then none
  else
    match get_balance attempt with
    | some balance =>
      some { address := address, label := label, balance_sol := some balance
             timestamp := some ts, error := none }
    | none =>
      some { address := address, label := label, balance_sol := none
             timestamp := none, error := some "exception" }

/-- `check_wallets` from `solana_monitor.py`: each configured wallet
paired with the outcome of its balance request. -/
def check_wallets (wallets : List (WatchedWallet × Except String Json))
    (ts : String) : List WalletObs :=
  wallets.filterMap (fun w => checkWalletEntry w.1 w.2 ts)

/-- Python truthiness of a decoded JSON value (`if pairs:`). -/
def pyTruthy : Json → Bool
  | Json.null => false
  | Json.bool b => b
  | Json.num q => q != 0
  | Json.str s => !s.isEmpty
  | Json.arr elems => !elems.isEmpty
  | Json.obj fields => !fields.isEmpty

/-- The nested access `pair.get(key, {}).get(inner, "N/A")` of
`check_prices`: `none` models the `AttributeError` raised when the stored
value of `key` is present but is not a dict (`.get` on a non-dict). -/
def nestedGet (pf : List (String × Json)) (key inner : String) : Option Json :=
  match (jLook pf key).getD (Json.obj []) with
  | Json.obj inner_fields => some ((jLook inner_fields inner).getD (Json.str "N/A"))
  | _ => none

/-- Loop body of `check_prices` from `solana_monitor.py` for one token,
with the outcome of its `dex_search` request and the sweep timestamp
passed in. A failed request becomes `{"error": ...}` inside `fetch_json`,
so `data.get("pairs", [])` is empty and the token gets the
`"No pairs found"` record; shapes on which the subscripting or a `.get`
raise — a non-dict response, truthy non-list `pairs`, a non-dict first
pair, or a non-dict `priceChange`/`volume`/`liquidity` value inside it —
are caught by the `except` branch and give the `{symbol, error}` record
(the exception's text is not modelled; the fixed string `"exception"`
stands for it). -/
def checkPriceEntry (token : String) (attempt : Except String Json)
    (ts : String) : TokenObs :=
  match fetch_json attempt with
  | Json.obj fields =>
    match (jLook fields "pairs").getD (Json.arr []) with
    | Json.arr (pair :: _) =>
      match pair with
      | Json.obj pf =>
        match nestedGet pf "priceChange" "h24", nestedGet pf "volume" "h24",
            nestedGet pf "liquidity" "usd" with
        | some change, some volume, some liquidity =>
          { symbol := token
            price_usd := some ((jLook pf "priceUsd").getD (Json.str "N/A"))
            change_24h := some change
            volume_24h := some volume
            liquidity_usd := some liquidity
            dex := some ((jLook pf "dexId").getD (Json.str "Unknown"))
            timestamp := some ts, error := none }
        | _, _, _ =>
          { symbol := token, price_usd := none, change_24h := none
            volume_24h := none, liquidity_usd := none, dex := none
            timestamp := none, error := some "exception" }
      | _ =>
        { symbol := token, price_usd := none, change_24h := none
          volume_24h := none, liquidity_usd := none, dex := none
          timestamp := none, error := some "exception" }
    | other =>
      if pyTruthy other then
        { symbol := token, price_usd := none, change_24h := none
          volume_24h := none, liquidity_usd := none, dex := none
          timestamp := none, error := some "exception" }
      else
        { symbol := token, price_usd := none, change_24h := none
          volume_24h := none, liquidity_usd := none, dex := none
          timestamp := none, error := some "No pairs found" }
  | _ =>
    { symbol := token, price_usd := none, change_24h := none
      volume_24h := none, liquidity_usd := none, dex := none
      timestamp := none, error := some "exception" }

/-- `check_prices` from `solana_monitor.py`: each watched token paired
with the outcome of its `dex_search` request. -/
def check_prices (tokens : List (String × Except String Json))
    (ts : String) : List TokenObs :=
  tokens.map (fun t => checkPriceEntry t.1 t.2 ts)

/-- One entry of the `getRecentPerformanceSamples` RPC result, with the
keys `handle_network` reads; `none` means the key is absent. -/
structure PerfSample where
  slot : Option Nat
  numTransactions : Option Nat
  samplePeriodSecs : Option Nat
  deriving DecidableEq

/-- The TPS computation of `handle_network` from `solana_query.py`:
`txs = sample.get("numTransactions", 0)`,
`period = sample.get("samplePeriodSecs", 1)`,
`tps = txs // period if period > 0 else 0`. -/
def sampleTps (sample : PerfSample) : Nat :=
  let txs := sample.numTransactions.getD 0
  let period := sample.samplePeriodSecs.getD 1
  if 0 < period then txs / period else 0

/-! ### Change-Detection Engine (`detect_changes` in `solana_monitor.py`) -/

/-- The dict comprehension
`prev_wallets = {w["address"]: w for w in previous.get("wallets", [])}`
followed by `prev_wallets[addr]`: index by address, a duplicated address
keeping its last occurrence. -/
def indexWallets (ws : List WalletObs) (addr : String) : Option WalletObs :=
  (ws.filter (fun w => w.address = addr)).getLast?

/-- The dict comprehension
`prev_prices = {p["symbol"]: p for p in previous.get("prices", [])}`
followed by `prev_prices[sym]`: index by symbol, a duplicated symbol
keeping its last occurrence. -/
def indexPrices (ps : List TokenObs) (sym : String) : Option TokenObs :=
  (ps.filter (fun p => p.symbol = sym)).getLast?

/-- `float(record.get("price_usd", 0))` as used on both sides of the price
comparison: an absent key defaults to `0` (which converts to `0.0`), a
string is parsed as a float literal, a number or bool converts directly,
and any other value raises (`none`, the skipped-token case). -/
def parsePriceField (v : Option Json) : Option ℚ :=
  match v with
  | none => some 0
  | some (Json.num q) => some q
  | some (Json.bool b) => some (if b then 1 else 0)
  | some (Json.str s) => parseFloat? s
  | some _ => none

/-- Body of the wallet loop of `detect_changes` (lines 116-128 of
`solana_monitor.py`): the alert produced for one wallet of the current
snapshot, or `none`. `prev_bal` is
`prev_wallets[addr].get("balance_sol", 0) or 0` (the `or 0` maps a `None`
balance to `0`, which `Option.getD 0` already does in this model). -/
def walletAlert (prevWallets : String → Option WalletObs) (w : WalletObs) :
    Option String :=
  match prevWallets w.address, w.balance_sol with
  | some pw, some curr_bal =>
    let prev_bal := pw.balance_sol.getD 0
    if 0 < prev_bal then
      let change_pct := (curr_bal - prev_bal) / prev_bal * 100
      if 5 < |change_pct| then
        let direction := if 0 < change_pct then "increased" else "decreased"
        some ("Wallet " ++ w.label ++ ": Balance " ++ direction ++ " by "
          ++ fmtFixed 1 |change_pct| ++ "% (" ++ fmtFixed 4 prev_bal ++ " -> "
          ++ fmtFixed 4 curr_bal ++ " SOL)")
      else none
    else none
  | _, _ => none

/-- Body of the price loop of `detect_changes` (lines 132-147 of
`solana_monitor.py`): the alert produced for one token of the current
snapshot, or `none`. A parse failure of either side is the caught
`ValueError`/`TypeError` (skip). -/
def priceAlert (prevPrices : String → Option TokenObs) (p : TokenObs) :
    Option String :=
  match prevPrices p.symbol with
  | some pp =>
    match parsePriceField p.price_usd, parsePriceField pp.price_usd with
    | some curr_price, some prev_price =>
      if 0 < prev_price then
        let change_pct := (curr_price - prev_price) / prev_price * 100
        if 10 < |change_pct| then
          let direction := if 0 < change_pct then "pumped" else "dumped"
          some (p.symbol ++ " " ++ direction ++ " " ++ fmtFixed 1 |change_pct|
            ++ "% ($" ++ fmtFixed 4 prev_price ++ " -> $"
            ++ fmtFixed 4 curr_price ++ ")")
        else none
      else none
    | _, _ => none
  | none => none

/-- `detect_changes` from `solana_monitor.py`: one `alerts` list built by
appending through the wallet loop and then the price loop. -/
def detect_changes (current previous : Snapshot) : List String :=
  let prevWallets := indexWallets previous.wallets
  let walletAlerts := current.wallets.foldl
    (fun alerts w => alerts ++ (walletAlert prevWallets w).toList) []
  let prevPrices := indexPrices previous.prices
  current.prices.foldl
    (fun alerts p => alerts ++ (priceAlert prevPrices p).toList) walletAlerts

/-! ### Snapshot Store (`save_snapshot` / `load_previous_snapshot`) -/

/-- JSON encoding of a wallet observation, mirroring the dicts built by
`check_wallets`; absent optional fields omit their key. -/
def encodeWallet (w : WalletObs) : Json :=
  Json.obj ([("address", Json.str w.address), ("label", Json.str w.label),
    ("balance_sol", match w.balance_sol with
      | some q => Json.num q
      | none => Json.null)]
    ++ (match w.timestamp with
      | some t => [("timestamp", Json.str t)]
      | none => [])
    ++ (match w.error with
      | some e => [("error", Json.str e)]
      | none => []))

/-- JSON encoding of a token observation, mirroring the dicts built by
`check_prices`; absent optional fields omit their key. -/
def encodeToken (p : TokenObs) : Json :=
  Json.obj ([("symbol", Json.str p.symbol)]
    ++ (match p.price_usd with
      | some v => [("price_usd", v)]
      | none => [])
    ++ (match p.change_24h with
      | some v => [("change_24h", v)]
      | none => [])
    ++ (match p.volume_24h with
      | some v => [("volume_24h", v)]
      | none => [])
    ++ (match p.liquidity_usd with
      | some v => [("liquidity_usd", v)]
      | none => [])
    ++ (match p.dex with
      | some v => [("dex", v)]
      | none => [])
    ++ (match p.timestamp with
      | some t => [("timestamp", Json.str t)]
      | none => [])
    ++ (match p.error with
      | some e => [("error", Json.str e)]
      | none => []))

/-- JSON encoding of a snapshot (`json.dumps(data)` in `save_snapshot`). -/
def encodeSnapshot (s : Snapshot) : Json :=
  Json.obj ((match s.timestamp with
      | some t => [("timestamp", Json.str t)]
      | none => [])
    ++ [("wallets", Json.arr (s.wallets.map encodeWallet)),
        ("prices", Json.arr (s.prices.map encodeToken))])

/-- Decoding of one wallet dict, with the same leniency as the dynamic
accesses of `detect_changes`/`format_report`: `address` and `label` must
be strings (they are subscripted directly), `balance_sol` must be a
number or `None`/absent (it is compared numerically), `timestamp` and
`error` are optional strings. -/
def decodeWallet (j : Json) : Option WalletObs :=
  match j with
  | Json.obj fields =>
    match jLook fields "address", jLook fields "label" with
    | some (Json.str address), some (Json.str label) =>
      match (match jLook fields "balance_sol" with
        | none => some none
        | some Json.null => some none
        | some (Json.num q) => some (some q)
        | some _ => none : Option (Option ℚ)) with
      | some balance =>
        some { address := address, label := label, balance_sol := balance
               timestamp := match jLook fields "timestamp" with
                 | some (Json.str t) => some t
                 | _ => none
               error := match jLook fields "error" with
                 | some (Json.str e) => some e
                 | _ => none }
      | none => none
    | _, _ => none
  | _ => none

/-- Decoding of one token dict: `symbol` must be a string (it is
subscripted directly), the price-like fields are kept as the raw JSON
values, `timestamp` and `error` are optional strings. -/
def decodeToken (j : Json) : Option TokenObs :=
  match j with
  | Json.obj fields =>
    match jLook fields "symbol" with
    | some (Json.str symbol) =>
      some { symbol := symbol
             price_usd := jLook fields "price_usd"
             change_24h := jLook fields "change_24h"
             volume_24h := jLook fields "volume_24h"
             liquidity_usd := jLook fields "liquidity_usd"
             dex := jLook fields "dex"
             timestamp := match jLook fields "timestamp" with
               | some (Json.str t) => some t
               | _ => none
             error := match jLook fields "error" with
               | some (Json.str e) => some e
               | _ => none }
    | _ => none
  | _ => none

/-- Decoding of a snapshot dict as `detect_changes` reads it:
`previous.get("wallets", [])` and `previous.get("prices", [])` default to
empty lists, an optional string timestamp; the empty dict `{}` decodes to
`emptySnapshot`. -/
def decodeSnapshot (j : Json) : Option Snapshot :=
  match j with
  | Json.obj fields =>
    let walletsJson := (jLook fields "wallets").getD (Json.arr [])
    let pricesJson := (jLook fields "prices").getD (Json.arr [])
    match walletsJson, pricesJson with
    | Json.arr ws, Json.arr ps =>
      match ws.mapM decodeWallet, ps.mapM decodeToken with
      | some wallets, some prices =>
        some { timestamp := match jLook fields "timestamp" with
                 | some (Json.str t) => some t
                 | _ => none
               wallets := wallets, prices := prices }
      | _, _ => none
    | _, _ => none
  | _ => none

/-- The snapshot directory: the records of `SNAPSHOTS_DIR`, each a
filename paired with its JSON content. -/
abbrev Store := List (String × Json)

/-- `path.write_text(...)`: the filesystem replaces the content of an
existing name and otherwise creates a new entry. -/
def writeFile (st : Store) (name : String) (content : Json) : Store :=
  if (List.map Prod.fst st).contains name then
    List.map (fun p => if p.1 = name then (name, content) else p) st
  else
    st ++ [(name, content)]

/-- Content of a named record. -/
def readFile (st : Store) (name : String) : Option Json :=
  (List.find? (fun p => p.1 = name) st).map Prod.snd

/-- `save_snapshot` from `solana_monitor.py`: the minute-granularity
timestamp `ts` (strftime `%Y%m%d-%H%M`, passed in here) names the file
`snapshot-{ts}.json`, which is written with the serialized snapshot. -/
def save_snapshot (st : Store) (ts : String) (data : Snapshot) : Store :=
  writeFile st ("snapshot-" ++ ts ++ ".json") (encodeSnapshot data)

/-- `sorted(SNAPSHOTS_DIR.glob("*.json"))[-1]` of
`load_previous_snapshot`: the lexicographically last filename, computed
as the maximum of the name list (the last element of a sorted list is its
maximum; filenames in a directory are distinct). -/
def lastName : List String → Option String
  | [] => none
  | n :: ns =>
    match lastName ns with
    | none => some n
    | some m => some (if n ≤ m then m else n)

/-- `load_previous_snapshot` from `solana_monitor.py`: the parsed content
of the lexicographically last `*.json` record, or the empty dict `{}`
when the store has none. -/
def load_previous_snapshot (st : Store) : Json :=
  match lastName (List.map Prod.fst st) with
  | some n => (readFile st n).getD Json.null
  | none => Json.obj []

/-! ### Structural lemmas about the detection engine -/

lemma foldl_append_toList {α β : Type} (f : α → Option β) :
    ∀ (xs : List α) (init : List β),
      xs.foldl (fun acc x => acc ++ (f x).toList) init = init ++ xs.filterMap f
  | [], init => by simp
  | x :: xs, init => by
    rw [List.foldl_cons, foldl_append_toList f xs, List.filterMap_cons]
    cases f x <;> simp

/-- The alert list is the wallet alerts of the current snapshot's wallets,
in their order, followed by the price alerts of the current snapshot's
tokens, in their order. -/
lemma detect_changes_eq (current previous : Snapshot) :
    detect_changes current previous =
      current.wallets.filterMap (walletAlert (indexWallets previous.wallets)) ++
      current.prices.filterMap (priceAlert (indexPrices previous.prices)) := by
  rw [detect_changes]
  rw [foldl_append_toList, foldl_append_toList]
  simp

lemma indexWallets_nil (addr : String) : indexWallets [] addr = none := rfl

lemma indexPrices_nil (sym : String) : indexPrices [] sym = none := rfl

lemma indexWallets_singleton (pw : WalletObs) (addr : String) :
    indexWallets [pw] addr = if pw.address = addr then some pw else none := by
  by_cases h : pw.address = addr <;> simp [indexWallets, List.filter_cons, h]

lemma indexPrices_singleton (pp : TokenObs) (sym : String) :
    indexPrices [pp] sym = if pp.symbol = sym then some pp else none := by
  by_cases h : pp.symbol = sym <;> simp [indexPrices, List.filter_cons, h]

lemma filter_key_eq {α : Type} (key : α → String) :
    ∀ (xs : List α) (x : α), (xs.map key).Nodup → x ∈ xs →
      xs.filter (fun y => key y = key x) = [x]
  | [], x, _, hx => absurd hx (List.not_mem_nil x)
  | y :: ys, x, hnd, hx => by
    rw [List.map_cons, List.nodup_cons] at hnd
    obtain ⟨hy, hnd'⟩ := hnd
    rcases List.mem_cons.mp hx with rfl | hmem
    · have : ys.filter (fun z => key z = key x) = [] := by
        apply List.filter_eq_nil_iff.mpr
        intro z hz hkey
        exact hy (by
          rw [← of_decide_eq_true hkey]
          exact List.mem_map_of_mem key hz)
      simp [List.filter_cons, this]
    · have hne : key y ≠ key x := by
        intro he
        exact hy (he ▸ List.mem_map_of_mem key hmem)
      rw [List.filter_cons, if_neg (by simp [hne])]
      exact filter_key_eq key ys x hnd' hmem

lemma indexWallets_self (ws : List WalletObs) (w : WalletObs)
    (hnd : (ws.map WalletObs.address).Nodup) (hw : w ∈ ws) :
    indexWallets ws w.address = some w := by
  rw [indexWallets, filter_key_eq WalletObs.address ws w hnd hw]
  rfl

lemma indexPrices_self (ps : List TokenObs) (p : TokenObs)
    (hnd : (ps.map TokenObs.symbol).Nodup) (hp : p ∈ ps) :
    indexPrices ps p.symbol = some p := by
  rw [indexPrices, filter_key_eq TokenObs.symbol ps p hnd hp]
  rfl

/-- Comparing an observation with itself never alerts: the change is `0`
when the guards pass, and the guards otherwise reject. -/
lemma walletAlert_self (ws : List WalletObs) (w : WalletObs)
    (hnd : (ws.map WalletObs.address).Nodup) (hw : w ∈ ws) :
    walletAlert (indexWallets ws) w = none := by
  rw [walletAlert, indexWallets_self ws w hnd hw]
  cases hb : w.balance_sol with
  | none => rfl
  | some curr =>
    simp only [hb, Option.getD_some]
    by_cases hpos : (0 : ℚ) < curr
    · rw [if_pos hpos, if_neg]
      simp
    · rw [if_neg hpos]

lemma priceAlert_self (ps : List TokenObs) (p : TokenObs)
    (hnd : (ps.map TokenObs.symbol).Nodup) (hp : p ∈ ps) :
    priceAlert (indexPrices ps) p = none := by
  rw [priceAlert, indexPrices_self ps p hnd hp]
  cases hv : parsePriceField p.price_usd with
  | none => rfl
  | some v =>
    simp only [hv]
    by_cases hpos : (0 : ℚ) < v
    · rw [if_pos hpos, if_neg]
      simp
    · rw [if_neg hpos]

/-! ### Structural lemmas about the snapshot store -/

lemma lastName_cons_ne_none (n : String) (ns : List String) :
    lastName (n :: ns) ≠ none := by
  rw [lastName]
  cases lastName ns <;> simp

lemma lastName_eq_none : ∀ {l : List String}, lastName l = none → l = []
  | [], _ => rfl
  | n :: ns, h => absurd h (lastName_cons_ne_none n ns)

lemma lastName_mem : ∀ (l : List String) (m : String), lastName l = some m → m ∈ l
  | [], _, h => by simp [lastName] at h
  | n :: ns, m, h => by
    rw [lastName] at h
    cases hns : lastName ns with
    | none =>
      rw [hns] at h
      simp only [Option.some_inj] at h
      exact h ▸ List.mem_cons_self n ns
    | some m' =>
      rw [hns] at h
      simp only [Option.some_inj] at h
      have hm' := lastName_mem ns m' hns
      by_cases hle : n ≤ m'
      · rw [if_pos hle] at h
        exact List.mem_cons_of_mem n (h ▸ hm')
      · rw [if_neg hle] at h
        exact h ▸ List.mem_cons_self n ns

lemma lastName_is_max : ∀ (l : List String) (m : String), lastName l = some m →
    ∀ x ∈ l, x ≤ m
  | [], _, h => by simp [lastName] at h
  | n :: ns, m, h => by
    intro x hx
    rw [lastName] at h
    cases hns : lastName ns with
    | none =>
      rw [hns] at h
      simp only [Option.some_inj] at h
      obtain rfl := lastName_eq_none hns
      rcases List.mem_cons.mp hx with rfl | hx'
      · exact le_of_eq h
      · exact absurd hx' (List.not_mem_nil x)
    | some m' =>
      rw [hns] at h
      simp only [Option.some_inj] at h
      have hmax := lastName_is_max ns m' hns
      by_cases hle : n ≤ m'
      · rw [if_pos hle] at h
        subst h
        rcases List.mem_cons.mp hx with rfl | hx'
        · exact hle
        · exact hmax x hx'
      · rw [if_neg hle] at h
        subst h
        rcases List.mem_cons.mp hx with rfl | hx'
        · exact le_refl x
        · exact le_trans (hmax x hx') (le_of_not_le hle)

lemma lastName_eq_of_max : ∀ (l : List String) (k : String), k ∈ l →
    (∀ n ∈ l, n ≤ k) → lastName l = some k
  | [], k, hk, _ => absurd hk (List.not_mem_nil k)
  | n :: ns, k, hk, hall => by
    rw [lastName]
    cases hns : lastName ns with
    | none =>
      obtain rfl := lastName_eq_none hns
      rcases List.mem_cons.mp hk with rfl | hk'
      · rfl
      · exact absurd hk' (List.not_mem_nil k)
    | some m =>
      have hm := lastName_mem ns m hns
      have hmax := lastName_is_max ns m hns
      simp only [Option.some_inj]
      rcases List.mem_cons.mp hk with hkn | hk'
      · subst hkn
        by_cases hle : k ≤ m
        · rw [if_pos hle]
          exact le_antisymm (hall m (List.mem_cons_of_mem k hm)) hle
        · rw [if_neg hle]
      · have hkm : k ≤ m := hmax k hk'
        have hmk : m ≤ k := hall m (List.mem_cons_of_mem n hm)
        obtain rfl := le_antisymm hkm hmk
        rw [if_pos (hall n (List.mem_cons_self n ns))]

lemma map_fst_replace (ps : Store) (name : String) (content : Json) :
    List.map Prod.fst
      (List.map (fun q => if q.1 = name then (name, content) else q) ps) =
    List.map Prod.fst ps := by
  induction ps with
  | nil => rfl
  | cons q qs ih =>
    have hhead : Prod.fst (if q.1 = name then (name, content) else q) = q.1 := by
      by_cases hq : q.1 = name
      · rw [if_pos hq, hq]
      · rw [if_neg hq]
    simp only [List.map_cons, hhead, ih]

lemma map_fst_writeFile (st : Store) (name : String) (content : Json) :
    List.map Prod.fst (writeFile st name content) =
      if (List.map Prod.fst st).contains name then List.map Prod.fst st
      else List.map Prod.fst st ++ [name] := by
  rw [writeFile]
  by_cases h : (List.map Prod.fst st).contains name
  · rw [if_pos h, if_pos h]
    exact map_fst_replace st name content
  · rw [if_neg h, if_neg h, List.map_append]
    rfl

lemma readFile_writeFile_self (st : Store) (name : String) (content : Json) :
    readFile (writeFile st name content) name = some content := by
  rw [writeFile]
  by_cases h : (List.map Prod.fst st).contains name
  · rw [if_pos h]
    have hmem : ∃ p ∈ st, p.1 = name := by
      rcases List.mem_map.mp (List.elem_iff.mp h : name ∈ List.map Prod.fst st)
        with ⟨p, hp, hfst⟩
      exact ⟨p, hp, hfst⟩
    obtain ⟨p0, hp0, hfst0⟩ := hmem
    clear h
    induction st with
    | nil => exact absurd hp0 (List.not_mem_nil p0)
    | cons q qs ih =>
      rw [List.map_cons, readFile]
      by_cases hq : q.1 = name
      · rw [if_pos hq]
        rw [List.find?_cons_of_pos _ (by simp)]
        rfl
      · rw [if_neg hq]
        rw [List.find?_cons_of_neg _ (by simp [hq])]
        rcases List.mem_cons.mp hp0 with rfl | hmem'
        · exact absurd hfst0 hq
        · exact ih hmem'
  · rw [if_neg h, readFile]
    have hnone : List.find? (fun p => decide (p.1 = name)) st = none := by
      apply List.find?_eq_none.mpr
      intro p hp
      simp only [decide_eq_true_eq]
      intro hfst
      exact (fun hmem => h (List.elem_iff.mpr hmem))
        (hfst ▸ List.mem_map_of_mem Prod.fst hp)
    rw [List.find?_append, hnone]
    simp [List.find?]

lemma writeFile_preserves (st : Store) (name : String) (content : Json)
    (h : ¬ (List.map Prod.fst st).contains name) :
    ∀ p ∈ st, p ∈ writeFile st name content := by
  intro p hp
  rw [writeFile, if_neg h]
  exact List.mem_append_left _ hp

/-! ### Serialization round trip -/

lemma decodeWallet_encodeWallet (w : WalletObs) :
    decodeWallet (encodeWallet w) = some w := by
  obtain ⟨a, l, b, t, e⟩ := w
  cases b <;> cases t <;> cases e <;> rfl

set_option maxHeartbeats 1600000 in
lemma decodeToken_encodeToken (p : TokenObs) :
    decodeToken (encodeToken p) = some p := by
  obtain ⟨s, pu, c24, v24, lq, dx, t, e⟩ := p
  cases pu <;> cases c24 <;> cases v24 <;> cases lq <;> cases dx <;>
    cases t <;> cases e <;> rfl

lemma mapM_decode_encode {α : Type} (enc : α → Json) (dec : Json → Option α)
    (h : ∀ x, dec (enc x) = some x) :
    ∀ xs : List α, (xs.map enc).mapM dec = some xs
  | [] => rfl
  | x :: xs => by
    rw [List.map_cons, List.mapM_cons, h x, mapM_decode_encode enc dec h xs]
    rfl

lemma decodeSnapshot_encodeSnapshot (s : Snapshot) :
    decodeSnapshot (encodeSnapshot s) = some s := by
  obtain ⟨ts, ws, ps⟩ := s
  have hws := mapM_decode_encode encodeWallet decodeWallet decodeWallet_encodeWallet ws
  have hps := mapM_decode_encode encodeToken decodeToken decodeToken_encodeToken ps
  cases ts with
  | none =>
    rw [show encodeSnapshot ⟨none, ws, ps⟩ =
      Json.obj [("wallets", Json.arr (ws.map encodeWallet)),
                ("prices", Json.arr (ps.map encodeToken))] from rfl]
    simp only [decodeSnapshot]
    rw [show jLook [("wallets", Json.arr (ws.map encodeWallet)),
          ("prices", Json.arr (ps.map encodeToken))] "wallets" =
        some (Json.arr (ws.map encodeWallet)) from rfl,
      show jLook [("wallets", Json.arr (ws.map encodeWallet)),
          ("prices", Json.arr (ps.map encodeToken))] "prices" =
        some (Json.arr (ps.map encodeToken)) from rfl,
      show jLook [("wallets", Json.arr (ws.map encodeWallet)),
          ("prices", Json.arr (ps.map encodeToken))] "timestamp" =
        none from rfl]
    simp only [Option.getD_some]
    rw [hws, hps]
  | some t =>
    rw [show encodeSnapshot ⟨some t, ws, ps⟩ =
      Json.obj [("timestamp", Json.str t),
                ("wallets", Json.arr (ws.map encodeWallet)),
                ("prices", Json.arr (ps.map encodeToken))] from rfl]
    simp only [decodeSnapshot]
    rw [show jLook [("timestamp", Json.str t),
          ("wallets", Json.arr (ws.map encodeWallet)),
          ("prices", Json.arr (ps.map encodeToken))] "wallets" =
        some (Json.arr (ws.map encodeWallet)) from rfl,
      show jLook [("timestamp", Json.str t),
          ("wallets", Json.arr (ws.map encodeWallet)),
          ("prices", Json.arr (ps.map encodeToken))] "prices" =
        some (Json.arr (ps.map encodeToken)) from rfl,
      show jLook [("timestamp", Json.str t),
          ("wallets", Json.arr (ws.map encodeWallet)),
          ("prices", Json.arr (ps.map encodeToken))] "timestamp" =
        some (Json.str t) from rfl]
    simp only [Option.getD_some]
    rw [hws, hps]

/-! ### Evaluation lemmas for single alerts -/

lemma walletAlert_eval (f : String → Option WalletObs) (w pw : WalletObs)
    (hf : f w.address = some pw) (c p : ℚ) (hc : w.balance_sol = some c)
    (hp' : pw.balance_sol = some p) (hpos : 0 < p) :
    walletAlert f w =
      if 5 < |(c - p) / p * 100| then
        some ("Wallet " ++ w.label ++ ": Balance "
          ++ (if 0 < (c - p) / p * 100 then "increased" else "decreased") ++ " by "
          ++ fmtFixed 1 |(c - p) / p * 100| ++ "% (" ++ fmtFixed 4 p ++ " -> "
          ++ fmtFixed 4 c ++ " SOL)")
      else none := by
  simp only [walletAlert, hf, hc, hp', Option.getD_some, if_pos hpos]

lemma walletAlert_none (f : String → Option WalletObs) (w : WalletObs)
    (h : ∀ pw, f w.address = some pw → pw.balance_sol.getD 0 = 0) :
    walletAlert f w = none := by
  rw [walletAlert]
  cases hf : f w.address with
  | none => cases w.balance_sol <;> rfl
  | some pw =>
    cases hb : w.balance_sol with
    | none => rfl
    | some c => simp [h pw hf]

lemma priceAlert_eval (f : String → Option TokenObs) (p pp : TokenObs)
    (hf : f p.symbol = some pp) (c pr : ℚ)
    (hc : parsePriceField p.price_usd = some c)
    (hp' : parsePriceField pp.price_usd = some pr) (hpos : 0 < pr) :
    priceAlert f p =
      if 10 < |(c - pr) / pr * 100| then
        some (p.symbol ++ " "
          ++ (if 0 < (c - pr) / pr * 100 then "pumped" else "dumped") ++ " "
          ++ fmtFixed 1 |(c - pr) / pr * 100| ++ "% ($" ++ fmtFixed 4 pr
          ++ " -> $" ++ fmtFixed 4 c ++ ")")
      else none := by
  simp only [priceAlert, hf, hc, hp', if_pos hpos]

/-! ### Claim theorems -/

/-- C6: for every pair of snapshots, `detect_changes` returns all wallet
alerts first, in the order the wallets appear in the current snapshot's
wallet sequence, followed by all price alerts, in the order the tokens
appear in the current snapshot's price sequence. -/
theorem c6_alert_order (current previous : Snapshot) :
    detect_changes current previous =
      current.wallets.filterMap (walletAlert (indexWallets previous.wallets)) ++
      current.prices.filterMap (priceAlert (indexPrices previous.prices)) :=
  detect_changes_eq current previous

/-- C9: the TPS figure of a recent-performance sample is the floor of
`txCount / periodSecs` computed with integer division, and is `0` when
the period is `0`, so no division by zero occurs. -/
theorem c9_tps_floor_div (sample : PerfSample) (txs p : Nat)
    (htx : sample.numTransactions = some txs)
    (hp : sample.samplePeriodSecs = some p) :
    (p = 0 → sampleTps sample = 0) ∧
    (0 < p → sampleTps sample = txs / p ∧
      sampleTps sample * p ≤ txs ∧ txs < (sampleTps sample + 1) * p) := by
  constructor
  · intro h0
    rw [sampleTps, htx, hp, h0]
    rfl
  · intro hpos
    have hval : sampleTps sample = txs / p := by
      rw [sampleTps, htx, hp]
      simp [hpos]
    refine ⟨hval, ?_, ?_⟩
    · rw [hval]
      exact Nat.div_mul_le_self txs p
    · rw [hval]
      calc txs = p * (txs / p) + txs % p := (Nat.div_add_mod txs p).symm
        _ < p * (txs / p) + p := Nat.add_lt_add_left (Nat.mod_lt txs hpos) _
        _ = (txs / p + 1) * p := by ring

/-- Witness for C9 at the concrete sample
`{slot: 1, numTransactions: 100, samplePeriodSecs: 7}`. -/
theorem c9_tps_floor_div_witness :
    ((7 : Nat) = 0 → sampleTps ⟨some 1, some 100, some 7⟩ = 0) ∧
    (0 < 7 → sampleTps ⟨some 1, some 100, some 7⟩ = 100 / 7 ∧
      sampleTps ⟨some 1, some 100, some 7⟩ * 7 ≤ 100 ∧
      100 < (sampleTps ⟨some 1, some 100, some 7⟩ + 1) * 7) :=
  c9_tps_floor_div ⟨some 1, some 100, some 7⟩ 100 7 rfl rfl

/-- C1: contrary to the claim, a failed RPC call does NOT surface through
the observation's error channel: `fetch_json` converts the exception into
`{"error": ...}`, `get_balance` then reads the defaulted `0` and returns a
silent balance of `0`, and `check_wallets` records a normal observation
with `balance_sol = 0` and no `error` field. (The last conjunct is the
true half of the claim: a well-formed response merely lacking the numeric
`value` field also converts to balance `0`.) -/
theorem c1_rpc_failure_silent_zero :
    get_balance (Except.error "urlopen error timed out") = some 0 ∧
    checkWalletEntry
        ⟨some "9xQeWvGbACJXWvG5KDRRGNqdCpyNyBCGWN66fUD1ppmp", some "whale"⟩
        (Except.error "urlopen error timed out") "2024-01-01T00:00:00+00:00" =
      some { address := "9xQeWvGbACJXWvG5KDRRGNqdCpyNyBCGWN66fUD1ppmp"
             label := "whale", balance_sol := some 0
             timestamp := some "2024-01-01T00:00:00+00:00", error := none } ∧
    get_balance (Except.ok (Json.obj [("jsonrpc", Json.str "2.0"),
        ("result", Json.obj [("context", Json.obj [])])])) = some 0 := by
  refine ⟨?_, ?_, ?_⟩
  · rw [show get_balance (Except.error "urlopen error timed out") =
      some ((0 : ℚ) / LAMPORTS_PER_SOL) from rfl]
    norm_num [LAMPORTS_PER_SOL]
  · rw [show checkWalletEntry
        ⟨some "9xQeWvGbACJXWvG5KDRRGNqdCpyNyBCGWN66fUD1ppmp", some "whale"⟩
        (Except.error "urlopen error timed out") "2024-01-01T00:00:00+00:00" =
      some { address := "9xQeWvGbACJXWvG5KDRRGNqdCpyNyBCGWN66fUD1ppmp"
             label := "whale", balance_sol := some ((0 : ℚ) / LAMPORTS_PER_SOL)
             timestamp := some "2024-01-01T00:00:00+00:00"
             error := none } from rfl]
    norm_num [LAMPORTS_PER_SOL]
  · rw [show get_balance (Except.ok (Json.obj [("jsonrpc", Json.str "2.0"),
        ("result", Json.obj [("context", Json.obj [])])])) =
      some ((0 : ℚ) / LAMPORTS_PER_SOL) from rfl]
    norm_num [LAMPORTS_PER_SOL]

/-- C5: with no stored records, `load_previous_snapshot` returns the empty
dict, which reads as the empty snapshot (`wallets = []`, `prices = []`)
rather than failing, and `detect_changes` of any current snapshot against
that empty previous snapshot is the empty alert list. -/
theorem c5_empty_store_no_alerts (cur : Snapshot) :
    load_previous_snapshot [] = Json.obj [] ∧
    decodeSnapshot (Json.obj []) = some emptySnapshot ∧
    detect_changes cur emptySnapshot = [] := by
  refine ⟨rfl, rfl, ?_⟩
  rw [detect_changes_eq]
  have hw : cur.wallets.filterMap
      (walletAlert (indexWallets emptySnapshot.wallets)) = [] := by
    apply List.filterMap_eq_nil_iff.mpr
    intro w _
    exact walletAlert_none _ w (fun pw hpw => by
      rw [show indexWallets emptySnapshot.wallets w.address = none from rfl] at hpw
      exact absurd hpw (Option.noConfusion))
  have hp : cur.prices.filterMap
      (priceAlert (indexPrices emptySnapshot.prices)) = [] := by
    apply List.filterMap_eq_nil_iff.mpr
    intro p _
    rw [priceAlert, show indexPrices emptySnapshot.prices p.symbol = none from rfl]
  rw [hw, hp]
  rfl

lemma filterMap_singleton_toList {α β : Type} (f : α → Option β) (x : α) :
    [x].filterMap f = (f x).toList := by
  cases h : f x <;> simp [List.filterMap_cons, h]

lemma detect_single_wallet (ts ts' : Option String) (w pw : WalletObs) :
    detect_changes ⟨ts, [w], []⟩ ⟨ts', [pw], []⟩ =
      (walletAlert (indexWallets [pw]) w).toList := by
  rw [detect_changes_eq]
  rw [show Snapshot.wallets ⟨ts, [w], []⟩ = [w] from rfl,
    show Snapshot.prices ⟨ts, [w], []⟩ = ([] : List TokenObs) from rfl,
    show Snapshot.wallets ⟨ts', [pw], []⟩ = [pw] from rfl]
  rw [filterMap_singleton_toList, List.filterMap_nil, List.append_nil]

lemma detect_single_price (ts ts' : Option String) (p pp : TokenObs) :
    detect_changes ⟨ts, [], [p]⟩ ⟨ts', [], [pp]⟩ =
      (priceAlert (indexPrices [pp]) p).toList := by
  rw [detect_changes_eq]
  rw [show Snapshot.wallets ⟨ts, [], [p]⟩ = ([] : List WalletObs) from rfl,
    show Snapshot.prices ⟨ts, [], [p]⟩ = [p] from rfl,
    show Snapshot.prices ⟨ts', [], [pp]⟩ = [pp] from rfl]
  rw [filterMap_singleton_toList, List.filterMap_nil, List.nil_append]

/-- A snapshot with the same wallet address listed twice with different
balances: the previous-wallet index keeps the last occurrence, so the
first occurrence compares against the other one's balance. -/
def c2CexW1 : WalletObs :=
  ⟨"DupAddr11111111111111111111111111111111111", "w1", some 100, none, none⟩

/-- Second observation of the duplicated address. -/
def c2CexW2 : WalletObs :=
  ⟨"DupAddr11111111111111111111111111111111111", "w2", some 200, none, none⟩

/-- The self-comparison counterexample snapshot for C2. -/
def c2CexSnapshot : Snapshot := ⟨none, [c2CexW1, c2CexW2], []⟩

/-- C2 counterexample: for the snapshot whose wallet list repeats one
address with balances 100 and 200, `detect_changes S S` is NOT the empty
list (the first occurrence is compared against the last one's balance,
a -50% change). -/
theorem c2_detect_self_cex :
    detect_changes c2CexSnapshot c2CexSnapshot ≠ [] := by
  intro hcon
  have hidx : indexWallets [c2CexW1, c2CexW2] c2CexW1.address = some c2CexW2 := rfl
  have h1 := walletAlert_eval (indexWallets [c2CexW1, c2CexW2]) c2CexW1 c2CexW2
    hidx 100 200 rfl rfl (by norm_num)
  rw [if_pos (by
    rw [show ((100 : ℚ) - 200) / 200 * 100 = -50 from by norm_num, abs_neg,
      abs_of_nonneg (by norm_num : (0 : ℚ) ≤ 50)]
    norm_num)] at h1
  rw [detect_changes_eq] at hcon
  rw [show c2CexSnapshot.wallets = [c2CexW1, c2CexW2] from rfl,
    show c2CexSnapshot.prices = ([] : List TokenObs) from rfl] at hcon
  rw [List.filterMap_cons, h1] at hcon
  simp at hcon

/-- C2 (amended): for every snapshot whose wallet addresses are pairwise
distinct and whose token symbols are pairwise distinct,
`detect_changes S S` is the empty alert list; the guards make this hold
also when a compared value is non-numeric or non-positive. -/
theorem c2_detect_self_empty (S : Snapshot)
    (hw : (S.wallets.map WalletObs.address).Nodup)
    (hp : (S.prices.map TokenObs.symbol).Nodup) :
    detect_changes S S = [] := by
  rw [detect_changes_eq]
  rw [List.filterMap_eq_nil_iff.mpr (fun w hw' => walletAlert_self S.wallets w hw hw'),
    List.filterMap_eq_nil_iff.mpr (fun p hp' => priceAlert_self S.prices p hp hp')]
  rfl

/-- The concrete snapshot of the C2 witness: one wallet, one token with a
non-numeric price. -/
def c2WitSnapshot : Snapshot :=
  ⟨some "2024-01-01T00:00:00+00:00",
    [⟨"Addr1111111111111111111111111111111111111111", "w", some 5, none, none⟩],
    [⟨"SOL", some (Json.str "N/A"), none, none, none, none, none, none⟩]⟩

/-- Witness for C2 (amended) at a concrete snapshot. -/
theorem c2_detect_self_empty_witness :
    ((c2WitSnapshot.wallets.map WalletObs.address).Nodup ∧
      (c2WitSnapshot.prices.map TokenObs.symbol).Nodup) ∧
    detect_changes c2WitSnapshot c2WitSnapshot = [] :=
  ⟨⟨by decide, by decide⟩, c2_detect_self_empty c2WitSnapshot (by decide) (by decide)⟩

/-- C3: the alert thresholds are strict. For a wallet present in both
snapshots with strictly positive previous balance, a change of exactly
5.0% in absolute value produces no wallet alert, while any absolute
change strictly greater than 5% produces exactly one; token prices behave
the same way at the 10% threshold. -/
theorem c3_strict_thresholds (addr lbl lbl' sym : String) (p c : ℚ)
    (hp : 0 < p) (ps cs : String) (pv cv : ℚ)
    (hps : parseFloat? ps = some pv) (hcs : parseFloat? cs = some cv)
    (hpv : 0 < pv) :
    (|(c - p) / p * 100| = 5 →
      detect_changes ⟨none, [⟨addr, lbl, some c, none, none⟩], []⟩
        ⟨none, [⟨addr, lbl', some p, none, none⟩], []⟩ = []) ∧
    (5 < |(c - p) / p * 100| →
      (detect_changes ⟨none, [⟨addr, lbl, some c, none, none⟩], []⟩
        ⟨none, [⟨addr, lbl', some p, none, none⟩], []⟩).length = 1) ∧
    (|(cv - pv) / pv * 100| = 10 →
      detect_changes
        ⟨none, [], [⟨sym, some (Json.str cs), none, none, none, none, none, none⟩]⟩
        ⟨none, [], [⟨sym, some (Json.str ps), none, none, none, none, none, none⟩]⟩
        = []) ∧
    (10 < |(cv - pv) / pv * 100| →
      (detect_changes
        ⟨none, [], [⟨sym, some (Json.str cs), none, none, none, none, none, none⟩]⟩
        ⟨none, [], [⟨sym, some (Json.str ps), none, none, none, none, none, none⟩]⟩).length
        = 1) := by
  have hidxw : indexWallets [⟨addr, lbl', some p, none, none⟩] addr =
      some ⟨addr, lbl', some p, none, none⟩ := by
    rw [indexWallets_singleton]
    exact if_pos rfl
  have hw := walletAlert_eval (indexWallets [⟨addr, lbl', some p, none, none⟩])
    ⟨addr, lbl, some c, none, none⟩ ⟨addr, lbl', some p, none, none⟩
    hidxw c p rfl rfl hp
  have hidxp : indexPrices
      [⟨sym, some (Json.str ps), none, none, none, none, none, none⟩] sym =
      some ⟨sym, some (Json.str ps), none, none, none, none, none, none⟩ := by
    rw [indexPrices_singleton]
    exact if_pos rfl
  have hq := priceAlert_eval
    (indexPrices [⟨sym, some (Json.str ps), none, none, none, none, none, none⟩])
    ⟨sym, some (Json.str cs), none, none, none, none, none, none⟩
    ⟨sym, some (Json.str ps), none, none, none, none, none, none⟩
    hidxp cv pv
    (by rw [show parsePriceField (some (Json.str cs)) = parseFloat? cs from rfl]
        exact hcs)
    (by rw [show parsePriceField (some (Json.str ps)) = parseFloat? ps from rfl]
        exact hps)
    hpv
  refine ⟨?_, ?_, ?_, ?_⟩
  · intro h5
    rw [detect_single_wallet, hw, if_neg (by rw [h5]; exact lt_irrefl 5)]
    rfl
  · intro h5
    rw [detect_single_wallet, hw, if_pos h5]
    rfl
  · intro h10
    rw [detect_single_price, hq, if_neg (by rw [h10]; exact lt_irrefl 10)]
    rfl
  · intro h10
    rw [detect_single_price, hq, if_pos h10]
    rfl

lemma c3ParseTwo : parseFloat? "2.0" = some 2 := by
  rw [parseFloat?, show parseParts "2.0" = some ⟨false, 2, 0, 1, false, 0⟩ from rfl]
  simp only [Option.map_some']
  norm_num [partsVal]

lemma c3ParseTwoTwo : parseFloat? "2.2" = some (11 / 5) := by
  rw [parseFloat?, show parseParts "2.2" = some ⟨false, 2, 2, 1, false, 0⟩ from rfl]
  simp only [Option.map_some']
  norm_num [partsVal]

/-- Witness for C3 at concrete inputs: balance 100 → 105 (exactly 5%, no
alert), balance 100 → 106 (6% > 5%, one alert), price "2.0" → "2.2"
(exactly 10%, no alert), and by a second application price-side change
above threshold is exercised through the wallet 6% case. -/
theorem c3_strict_thresholds_witness :
    ((0 : ℚ) < 100 ∧ parseFloat? "2.0" = some 2 ∧
      parseFloat? "2.2" = some (11 / 5) ∧ (0 : ℚ) < 2) ∧
    detect_changes
        ⟨none, [⟨"AddrOne111111111111111111111111111111111111", "w", some 105,
          none, none⟩], []⟩
        ⟨none, [⟨"AddrOne111111111111111111111111111111111111", "w", some 100,
          none, none⟩], []⟩ = [] ∧
    (detect_changes
        ⟨none, [⟨"AddrOne111111111111111111111111111111111111", "w", some 106,
          none, none⟩], []⟩
        ⟨none, [⟨"AddrOne111111111111111111111111111111111111", "w", some 100,
          none, none⟩], []⟩).length = 1 ∧
    detect_changes
        ⟨none, [], [⟨"SOL", some (Json.str "2.2"), none, none, none, none,
          none, none⟩]⟩
        ⟨none, [], [⟨"SOL", some (Json.str "2.0"), none, none, none, none,
          none, none⟩]⟩ = [] := by
  have h5 := c3_strict_thresholds "AddrOne111111111111111111111111111111111111"
    "w" "w" "SOL" 100 105 (by norm_num) "2.0" "2.2" 2 (11 / 5)
    c3ParseTwo c3ParseTwoTwo (by norm_num)
  have h6 := c3_strict_thresholds "AddrOne111111111111111111111111111111111111"
    "w" "w" "SOL" 100 106 (by norm_num) "2.0" "2.2" 2 (11 / 5)
    c3ParseTwo c3ParseTwoTwo (by norm_num)
  refine ⟨⟨by norm_num, c3ParseTwo, c3ParseTwoTwo, by norm_num⟩, ?_, ?_, ?_⟩
  · exact h5.1 (by
      rw [show ((105 : ℚ) - 100) / 100 * 100 = 5 from by norm_num]
      exact abs_of_pos (by norm_num))
  · exact h6.2.1 (by
      rw [show ((106 : ℚ) - 100) / 100 * 100 = 6 from by norm_num,
        abs_of_pos (by norm_num : (0 : ℚ) < 6)]
      norm_num)
  · exact h5.2.2.1 (by
      rw [show ((11 / 5 : ℚ) - 2) / 2 * 100 = 10 from by norm_num]
      exact abs_of_pos (by norm_num))

/-- C4: for every wallet of the current snapshot whose address is absent
from the previous snapshot's wallet index, or whose indexed previous
balance is `0` or absent, no wallet alert is emitted regardless of the
current balance: the whole alert list is just the price alerts. -/
theorem c4_no_alert_absent_or_zero_prev (cur prv : Snapshot)
    (h : ∀ w ∈ cur.wallets,
      indexWallets prv.wallets w.address = none ∨
      ∀ pw, indexWallets prv.wallets w.address = some pw →
        pw.balance_sol.getD 0 = 0) :
    detect_changes cur prv =
      cur.prices.filterMap (priceAlert (indexPrices prv.prices)) := by
  rw [detect_changes_eq]
  have hnil : cur.wallets.filterMap (walletAlert (indexWallets prv.wallets)) = [] := by
    apply List.filterMap_eq_nil_iff.mpr
    intro w hw
    apply walletAlert_none
    intro pw hpw
    rcases h w hw with hnone | hz
    · rw [hnone] at hpw
      exact Option.noConfusion hpw
    · exact hz pw hpw
  rw [hnil, List.nil_append]

/-- Previous snapshot of the C4 witness: one wallet with balance `0`, one
with an absent balance. -/
def c4PrvSnapshot : Snapshot :=
  ⟨none,
    [⟨"ZeroAddr1111111111111111111111111111111111", "z", some 0, none, none⟩,
     ⟨"NoneAddr1111111111111111111111111111111111", "n", none, none,
       some "exception"⟩],
    []⟩

/-- Current snapshot of the C4 witness: a brand-new address with a large
balance, plus large balances at the zero-balance and absent-balance
addresses. -/
def c4CurSnapshot : Snapshot :=
  ⟨none,
    [⟨"NewAddr11111111111111111111111111111111111", "a", some 1000000, none, none⟩,
     ⟨"ZeroAddr1111111111111111111111111111111111", "z", some 1000000, none, none⟩,
     ⟨"NoneAddr1111111111111111111111111111111111", "n", some 1000000, none, none⟩],
    []⟩

/-- Witness for C4 at the concrete snapshots. -/
theorem c4_no_alert_absent_or_zero_prev_witness :
    detect_changes c4CurSnapshot c4PrvSnapshot =
      c4CurSnapshot.prices.filterMap
        (priceAlert (indexPrices c4PrvSnapshot.prices)) := by
  apply c4_no_alert_absent_or_zero_prev
  intro w hw
  rw [show c4CurSnapshot.wallets = [
    ⟨"NewAddr11111111111111111111111111111111111", "a", some 1000000, none, none⟩,
    ⟨"ZeroAddr1111111111111111111111111111111111", "z", some 1000000, none, none⟩,
    ⟨"NoneAddr1111111111111111111111111111111111", "n", some 1000000, none,
      none⟩] from rfl] at hw
  simp only [List.mem_cons, List.not_mem_nil, or_false] at hw
  rcases hw with rfl | rfl | rfl
  · left
    rfl
  · right
    intro pw hpw
    rw [show indexWallets c4PrvSnapshot.wallets
        "ZeroAddr1111111111111111111111111111111111" =
      some ⟨"ZeroAddr1111111111111111111111111111111111", "z", some 0, none,
        none⟩ from rfl] at hpw
    obtain rfl := Option.some_inj.mp hpw
    rfl
  · right
    intro pw hpw
    rw [show indexWallets c4PrvSnapshot.wallets
        "NoneAddr1111111111111111111111111111111111" =
      some ⟨"NoneAddr1111111111111111111111111111111111", "n", none, none,
        some "exception"⟩ from rfl] at hpw
    obtain rfl := Option.some_inj.mp hpw
    rfl

/-- C7: writing a snapshot and immediately reading the latest one back
yields a snapshot equal field-for-field to the one written (for any
snapshot, including one with empty wallet and price lists), under the
store invariant that no existing record name sorts after the new
minute-key (the store is written with a monotone clock). -/
theorem c7_write_read_round_trip (st : Store) (ts : String) (s : Snapshot)
    (h : ∀ n ∈ List.map Prod.fst st, n ≤ "snapshot-" ++ ts ++ ".json") :
    decodeSnapshot (load_previous_snapshot (save_snapshot st ts s)) = some s := by
  have hread : readFile (save_snapshot st ts s) ("snapshot-" ++ ts ++ ".json") =
      some (encodeSnapshot s) :=
    readFile_writeFile_self st ("snapshot-" ++ ts ++ ".json") (encodeSnapshot s)
  have hkeys : lastName (List.map Prod.fst (save_snapshot st ts s)) =
      some ("snapshot-" ++ ts ++ ".json") := by
    rw [save_snapshot, map_fst_writeFile]
    by_cases hc : (List.map Prod.fst st).contains ("snapshot-" ++ ts ++ ".json")
    · rw [if_pos hc]
      exact lastName_eq_of_max _ _ (List.elem_iff.mp hc) h
    · rw [if_neg hc]
      apply lastName_eq_of_max
      · exact List.mem_append_right _ (List.mem_singleton.mpr rfl)
      · intro n hn
        rcases List.mem_append.mp hn with hn' | hn'
        · exact h n hn'
        · rw [List.mem_singleton.mp hn']
  rw [load_previous_snapshot, hkeys]
  show decodeSnapshot ((readFile (save_snapshot st ts s)
    ("snapshot-" ++ ts ++ ".json")).getD Json.null) = some s
  rw [hread, Option.getD_some]
  exact decodeSnapshot_encodeSnapshot s

/-- Witness for C7: a store holding one earlier record, a later
minute-key, and the empty snapshot. -/
theorem c7_write_read_round_trip_witness :
    (∀ n ∈ List.map Prod.fst
        [(("snapshot-20240101-0000.json" : String), Json.obj [])],
      n ≤ "snapshot-" ++ "20240102-0915" ++ ".json") ∧
    decodeSnapshot (load_previous_snapshot
      (save_snapshot [(("snapshot-20240101-0000.json" : String), Json.obj [])]
        "20240102-0915" emptySnapshot)) = some emptySnapshot := by
  have hle : ∀ n ∈ List.map Prod.fst
      [(("snapshot-20240101-0000.json" : String), Json.obj [])],
      n ≤ "snapshot-" ++ "20240102-0915" ++ ".json" := by
    intro n hn
    rw [List.mem_singleton.mp hn]
    exact String.le_iff_toList_le.mpr (by decide)
  exact ⟨hle, c7_write_read_round_trip
    [(("snapshot-20240101-0000.json" : String), Json.obj [])]
    "20240102-0915" emptySnapshot hle⟩

/-- C8 counterexample: a write whose minute-key equals an existing
record's key OVERWRITES that record: the old content is gone afterwards,
contradicting "never overwrites an existing record with the same key". -/
theorem c8_same_key_overwrites_cex :
    readFile [(("snapshot-20240101-0000.json" : String), Json.str "old")]
      "snapshot-20240101-0000.json" = some (Json.str "old") ∧
    readFile (save_snapshot
        [(("snapshot-20240101-0000.json" : String), Json.str "old")]
        "20240101-0000" emptySnapshot)
      "snapshot-20240101-0000.json" = some (encodeSnapshot emptySnapshot) ∧
    encodeSnapshot emptySnapshot ≠ Json.str "old" := by
  refine ⟨rfl, ?_, ?_⟩
  · exact readFile_writeFile_self
      [(("snapshot-20240101-0000.json" : String), Json.str "old")]
      "snapshot-20240101-0000.json" (encodeSnapshot emptySnapshot)
  · intro hcon
    exact Json.noConfusion
      (show Json.obj [("wallets", Json.arr []), ("prices", Json.arr [])] =
        Json.str "old" from hcon)

/-- C8 (amended): `save_snapshot` names the new record by the
minute-granularity key `snapshot-{ts}.json`; when that key differs from
every existing record's key, the write appends a new record and every
record that existed before still exists with unchanged content. (A write
whose key collides with an existing record overwrites it — see the
counterexample.) -/
theorem c8_fresh_key_preserves (st : Store) (ts : String) (s : Snapshot)
    (h : ¬ (List.map Prod.fst st).contains ("snapshot-" ++ ts ++ ".json")) :
    (∀ p ∈ st, p ∈ save_snapshot st ts s) ∧
    readFile (save_snapshot st ts s) ("snapshot-" ++ ts ++ ".json") =
      some (encodeSnapshot s) := by
  constructor
  · exact writeFile_preserves st ("snapshot-" ++ ts ++ ".json") (encodeSnapshot s) h
  · exact readFile_writeFile_self st ("snapshot-" ++ ts ++ ".json") (encodeSnapshot s)

/-- Witness for C8 (amended) at a concrete store and fresh key. -/
theorem c8_fresh_key_preserves_witness :
    (¬ (List.map Prod.fst
        [(("snapshot-20240101-0000.json" : String), Json.obj [])]).contains
      ("snapshot-" ++ "20240102-0915" ++ ".json")) ∧
    ((∀ p ∈ [(("snapshot-20240101-0000.json" : String), Json.obj [])],
        p ∈ save_snapshot [(("snapshot-20240101-0000.json" : String), Json.obj [])]
          "20240102-0915" emptySnapshot) ∧
      readFile (save_snapshot
          [(("snapshot-20240101-0000.json" : String), Json.obj [])]
          "20240102-0915" emptySnapshot)
        ("snapshot-" ++ "20240102-0915" ++ ".json") =
        some (encodeSnapshot emptySnapshot)) :=
  ⟨by decide, c8_fresh_key_preserves
    [(("snapshot-20240101-0000.json" : String), Json.obj [])]
    "20240102-0915" emptySnapshot (by decide)⟩

/-- C10 (implicit behavior): when the current sweep found no trading pairs
for a token, `check_prices` records `{symbol, error: "No pairs found"}`
with no `price_usd` key; `detect_changes` then reads the missing field
through the default `price.get("price_usd", 0)`, which parses successfully
to `0.0` instead of being skipped, so a token whose previous price parsed
to a strictly positive value raises a `dumped 100.0%` price alert. -/
theorem c10_missing_price_dumps_100 (sym ts : String) (pv : Json) (q : ℚ)
    (hq : parsePriceField (some pv) = some q) (hpos : 0 < q) :
    checkPriceEntry sym (Except.ok (Json.obj [("pairs", Json.arr [])])) ts =
      ⟨sym, none, none, none, none, none, none, some "No pairs found"⟩ ∧
    detect_changes
      ⟨none, [], [⟨sym, none, none, none, none, none, none,
        some "No pairs found"⟩]⟩
      ⟨none, [], [⟨sym, some pv, none, none, none, none, none, none⟩]⟩ =
      [sym ++ " dumped 100.0% ($" ++ fmtFixed 4 q ++ " -> $0.0000)"] := by
  constructor
  · rfl
  · rw [detect_single_price]
    have hidx : indexPrices
        [⟨sym, some pv, none, none, none, none, none, none⟩] sym =
        some ⟨sym, some pv, none, none, none, none, none, none⟩ := by
      rw [indexPrices_singleton]
      exact if_pos rfl
    have heval := priceAlert_eval
      (indexPrices [⟨sym, some pv, none, none, none, none, none, none⟩])
      ⟨sym, none, none, none, none, none, none, some "No pairs found"⟩
      ⟨sym, some pv, none, none, none, none, none, none⟩
      hidx 0 q rfl hq hpos
    rw [heval]
    rw [show ((0 : ℚ) - q) / q * 100 = -100 from by
      rw [zero_sub, neg_div, div_self (ne_of_gt hpos), neg_mul, one_mul]]
    rw [show |(-100 : ℚ)| = 100 from by
      rw [abs_neg]
      exact abs_of_pos (by norm_num)]
    rw [if_pos (by norm_num : (10 : ℚ) < 100)]
    rw [if_neg (by norm_num : ¬ (0 : ℚ) < -100)]
    rw [show fmtFixed 1 (100 : ℚ) = "100.0" from by
      rw [fmtFixed_eq_fmtDigits 1 100 1000 (by norm_num)]; rfl]
    rw [show fmtFixed 4 (0 : ℚ) = "0.0000" from by
      rw [fmtFixed_eq_fmtDigits 4 0 0 (by norm_num)]; rfl]
    simp [String.append_assoc]

lemma c10ParseTwoFive : parsePriceField (some (Json.str "2.5")) = some (5 / 2) := by
  rw [show parsePriceField (some (Json.str "2.5")) = parseFloat? "2.5" from rfl,
    parseFloat?, show parseParts "2.5" = some ⟨false, 2, 5, 1, false, 0⟩ from rfl]
  simp only [Option.map_some']
  norm_num [partsVal]

/-- Witness for C10 at the token "WIF" with previous price string "2.5". -/
theorem c10_missing_price_dumps_100_witness :
    (parsePriceField (some (Json.str "2.5")) = some (5 / 2) ∧ (0 : ℚ) < 5 / 2) ∧
    (checkPriceEntry "WIF" (Except.ok (Json.obj [("pairs", Json.arr [])]))
        "2024-01-01T00:00:00+00:00" =
      ⟨"WIF", none, none, none, none, none, none, some "No pairs found"⟩ ∧
    detect_changes
      ⟨none, [], [⟨"WIF", none, none, none, none, none, none,
        some "No pairs found"⟩]⟩
      ⟨none, [], [⟨"WIF", some (Json.str "2.5"), none, none, none, none, none,
        none⟩]⟩ =
      ["WIF" ++ " dumped 100.0% ($" ++ fmtFixed 4 (5 / 2 : ℚ) ++ " -> $0.0000)"]) :=
  ⟨⟨c10ParseTwoFive, by norm_num⟩,
    c10_missing_price_dumps_100 "WIF" "2024-01-01T00:00:00+00:00"
      (Json.str "2.5") (5 / 2) c10ParseTwoFive (by norm_num)⟩
